import Mathlib

/-!
# Verification of the aws-ipv4-cost-viewer collectors and coordinator

Shallow embedding of the scatter-gather core of `aws-ipv4-cost-viewer`:
the four resource collectors (`fetchAllInstances` in ec2.go, `fetchAllEIPs`
in eip.go, `fetchAllENIs`, `fetchAllLoadBalancers` in lb.go) and the
coordinator's join (`unpackChannelData` in ui.go).

Modelling conventions:
* Every outward AWS / DNS / CloudWatch call is an oracle function
  `String → Except String …` (region or query to outcome); the Go code's
  own filtering, error wrapping, cost computation and aggregation are
  translated statement by statement.
* Goroutine fan-out over regions is modelled functionally: each region
  task's contribution is computed by a per-region function translated from
  the goroutine body, and a collector's output is the concatenation of the
  per-region contributions together with the joined error strings, exactly
  the data that flows through the result/error channels. Arrival order on
  the channels is nondeterministic in Go; the model fixes region order,
  and all theorems below are order-insensitive (membership, totals,
  emptiness). The blocking behaviour of the lb.go channels themselves is
  modelled separately as a small-step state machine (`LbChan`).
* Go `float64` money amounts are modelled as exact rationals (`ℚ`); all
  constants involved (3.65 and its small multiples) are exact decimals.
* Go `int` is modelled as `Int` (`Nat` where the value is a length).
-/

/-- An EC2 resource tag key/value pair (`types.Tag`, both fields non-nil
wherever the code dereferences them). -/
structure Tag where
  key : String
  value : String
deriving DecidableEq, Repr

/-- `getTagValue` (tags.go): first tag with the given key, else `""`. -/
def getTagValue (tags : List Tag) (key : String) : String :=
  match tags.find? (fun t => t.key == key) with
  | some t => t.value
  | none => ""

/-- `getNameTagValue` (tags.go): `Name` tag, falling back to the
CloudFormation stack name, then the ASG name. -/
def getNameTagValue (tags : List Tag) : String :=
  let n1 := getTagValue tags "Name"
  let n2 := if n1 == "" then getTagValue tags "aws:cloudformation:stack-name" else n1
  if n2 == "" then getTagValue tags "aws:autoscaling:groupName" else n2

/-- The flat monthly fee per public IPv4 address, `3.65` in the source
(`FlatFeePerPublicIP` in ui.go and the literal `3.65` in each collector),
modelled as the exact decimal. -/
def flatFee : ℚ := 365 / 100

/-- Joining of collected error strings as eip.go, lb.go and the ENI file do:
`nil` when no error was gathered, otherwise `strings.Join(errors, "; ")`
wrapped in an error value. -/
def combineErrors (msgs : List String) : Option String :=
  if msgs.isEmpty then none else some (String.intercalate "; " msgs)

/-! ## EC2 instances collector (ec2.go) -/

/-- The fields of `types.Instance` that ec2.go reads. `publicIpAddress` is
optional (checked against nil); the other pointers are dereferenced
unconditionally and are modelled as plain values. -/
structure RawInstance where
  tags : List Tag
  stateName : String
  instanceId : String
  publicIpAddress : Option String
  vpcId : String
  subnetId : String
deriving DecidableEq, Repr

/-- `EC2InstanceInfo` (ec2.go). -/
structure EC2InstanceInfo where
  Region : String
  NameTag : String
  InstanceState : String
  InstanceID : String
  PublicIP : String
  VPCID : String
  SubnetID : String
  Cost : ℚ
deriving DecidableEq, Repr

/-- `fetchInstancesInRegion` (ec2.go): regional `DescribeInstances`
(the oracle), wrapping a failure and keeping only instances with a
non-nil, non-empty public IP. -/
def fetchInstancesInRegion (describeInstances : String → Except String (List RawInstance))
    (regionName : String) : Except String (List RawInstance) :=
  match describeInstances regionName with
  | .error e => .error ("failed to describe instances in region " ++ regionName ++ ": " ++ e)
  | .ok resp => .ok (resp.filter fun i =>
      match i.publicIpAddress with
      | some p => p != ""
      | none => false)

/-- The body of the per-region goroutine of `fetchAllInstances` (ec2.go):
on a regional failure the error is only logged (`log.Printf`) and the
goroutine returns, contributing nothing; on success every filtered
instance becomes a record at the flat fee. -/
def instancesRegionTask (describeInstances : String → Except String (List RawInstance))
    (regionName : String) : List EC2InstanceInfo :=
  match fetchInstancesInRegion describeInstances regionName with
  | .error _ => []
  | .ok instances => instances.map fun i =>
      { Region := regionName
        NameTag := getNameTagValue i.tags
        InstanceState := i.stateName
        InstanceID := i.instanceId
        PublicIP := i.publicIpAddress.getD ""
        VPCID := i.vpcId
        SubnetID := i.subnetId
        Cost := flatFee }

/-- `fetchAllInstances` (ec2.go): concatenates the per-region
contributions; the Go function always returns a nil error
(`return allInstances, nil`), hence the combined error is `none`. -/
def fetchAllInstances (describeInstances : String → Except String (List RawInstance))
    (regions : List String) : List EC2InstanceInfo × Option String :=
  (regions.flatMap (instancesRegionTask describeInstances), none)

/-! ## Elastic IP collector (eip.go) -/

/-- The fields of `types.Address` that eip.go reads. -/
structure RawAddress where
  instanceId : Option String
  associationId : Option String
  publicIp : String
  tags : List Tag
deriving DecidableEq, Repr

/-- The fields of an address returned by the association-id-filtered
`DescribeAddresses` call in `describeEIPByAssociationID`. -/
structure AddrDetail where
  instanceId : Option String
  networkInterfaceId : Option String
  allocationId : Option String
deriving DecidableEq, Repr

/-- One `NatGatewayAddress`. -/
structure NatAddress where
  allocationId : Option String
deriving DecidableEq, Repr

/-- One `NatGateway` with its addresses. -/
structure NatGateway where
  natGatewayId : String
  natGatewayAddresses : List NatAddress
deriving DecidableEq, Repr

/-- `EIPInfo` (eip.go). -/
structure EIPInfo where
  Region : String
  PublicIP : String
  AssociationTarget : String
  NameTag : String
  Cost : ℚ
deriving DecidableEq, Repr

/-- The regional AWS calls eip.go makes, as oracles: plain
`DescribeAddresses`, `DescribeAddresses` filtered by association id
(region, association id), and `DescribeNatGateways`. -/
structure EipApi where
  describeAddresses : String → Except String (List RawAddress)
  describeByAssociation : String → String → Except String (List AddrDetail)
  describeNatGateways : String → Except String (List NatGateway)

/-- `AssociationTypeInstance` (eip.go). -/
def AssociationTypeInstance : String := "Instance"

/-- `AssociationTypeNATGateway` (eip.go). -/
def AssociationTypeNATGateway : String := "NAT Gateway"

/-- The NAT-gateway scan inside `describeEIPByAssociationID` (eip.go):
first gateway holding an address whose allocation id matches, else `""`. -/
def natTargetFor (gws : List NatGateway) (allocationId : String) : String :=
  match gws.find? (fun gw => gw.natGatewayAddresses.any
      (fun na => na.allocationId == some allocationId)) with
  | some gw => AssociationTypeNATGateway ++ ": " ++ gw.natGatewayId
  | none => ""

/-- `describeEIPByAssociationID` (eip.go): resolves an association id to a
target description, `""` when nothing is found, propagating the errors of
both AWS calls. -/
def describeEIPByAssociationID (api : EipApi) (associationID : String) (regionName : String) :
    Except String String :=
  match api.describeByAssociation regionName associationID with
  | .error e => .error e
  | .ok [] => .ok ""
  | .ok (addr :: _) =>
    match addr.instanceId with
    | some iid => .ok (AssociationTypeInstance ++ ": " ++ iid)
    | none =>
      match addr.networkInterfaceId with
      | none => .ok ""
      | some _ =>
        match api.describeNatGateways regionName with
        | .error e => .error e
        | .ok gws => .ok (natTargetFor gws (addr.allocationId.getD ""))

/-- `fetchEIPsInRegion` (eip.go): regional `DescribeAddresses` with the
file's error wrapping. -/
def fetchEIPsInRegion (api : EipApi) (regionName : String) : Except String (List RawAddress) :=
  match api.describeAddresses regionName with
  | .error e => .error ("failed to describe EIPs in region " ++ regionName ++ ": " ++ e)
  | .ok addrs => .ok addrs

/-- The loop body of the eip.go region goroutine over the fetched
addresses: instance-attached EIPs are skipped (`continue`); a failing
association describe stops the region and reports its error (records
already sent to the channel stay); otherwise the record costs the flat
fee, doubled when no association target was resolved. -/
def eipRecordsAndError (api : EipApi) (regionName : String) :
    List RawAddress → List EIPInfo × Option String
  | [] => ([], none)
  | eip :: rest =>
    if eip.instanceId.isSome then
      eipRecordsAndError api regionName rest
    else
      match describeEIPByAssociationID api (eip.associationId.getD "") regionName with
      | .error e =>
        ([], some ("failed to describe EIP associations in region " ++ regionName ++ ": " ++ e))
      | .ok target =>
        let info : EIPInfo :=
          { Region := regionName
            PublicIP := eip.publicIp
            AssociationTarget := target
            NameTag := getNameTagValue eip.tags
            Cost := if target == "" then flatFee + flatFee else flatFee }
        let rec' := eipRecordsAndError api regionName rest
        (info :: rec'.fst, rec'.snd)

/-- The body of the per-region goroutine of `fetchAllEIPs` (eip.go):
the records the region puts on `eipCh` and the error it puts on `errCh`,
if any. -/
def eipRegionTask (api : EipApi) (regionName : String) : List EIPInfo × Option String :=
  match fetchEIPsInRegion api regionName with
  | .error e => ([], some ("failed to fetch EIPs in region " ++ regionName ++ ": " ++ e))
  | .ok addrs => eipRecordsAndError api regionName addrs

/-- `fetchAllEIPs` (eip.go): drains `eipCh` into the record list and
`errCh` into the error list, joining the errors with `"; "`. -/
def fetchAllEIPs (api : EipApi) (regions : List String) : List EIPInfo × Option String :=
  let results := regions.map (eipRegionTask api)
  (results.flatMap Prod.fst, combineErrors (results.filterMap Prod.snd))

/-! ## Network interface collector (the ENI file) -/

/-- `types.NetworkInterfaceAssociation` as read: the public IP. -/
structure EniAssociation where
  publicIp : Option String
deriving DecidableEq, Repr

/-- The fields of `types.NetworkInterface` that the ENI file reads. -/
structure RawENI where
  association : Option EniAssociation
  networkInterfaceId : String
deriving DecidableEq, Repr

/-- `ENIInfo`. -/
structure ENIInfo where
  Region : String
  PublicIP : String
  ENIID : String
  Cost : ℚ
deriving DecidableEq, Repr

/-- `fetchENIsInRegion`: regional `DescribeNetworkInterfaces` (the
oracle), wrapping a failure and keeping only interfaces with an
association carrying a non-empty public IP. -/
def fetchENIsInRegion (describeNetworkInterfaces : String → Except String (List RawENI))
    (regionName : String) : Except String (List RawENI) :=
  match describeNetworkInterfaces regionName with
  | .error e => .error ("failed to describe ENIs in region " ++ regionName ++ ": " ++ e)
  | .ok resp => .ok (resp.filter fun eni =>
      match eni.association with
      | some a => match a.publicIp with
        | some p => p != ""
        | none => false
      | none => false)

/-- The public IP the ENI record dereferences
(`*eni.Association.PublicIp`; the filter guarantees presence). -/
def eniPublicIp (eni : RawENI) : String :=
  match eni.association with
  | some a => a.publicIp.getD ""
  | none => ""

/-- The body of the per-region goroutine of `fetchAllENIs`: the records
the region puts on `eniCh` and the error it puts on `errCh`, if any. -/
def eniRegionTask (describeNetworkInterfaces : String → Except String (List RawENI))
    (regionName : String) : List ENIInfo × Option String :=
  match fetchENIsInRegion describeNetworkInterfaces regionName with
  | .error e => ([], some ("Failed to fetch ENIs in region " ++ regionName ++ ": " ++ e))
  | .ok enis =>
    (enis.map fun eni =>
      { Region := regionName
        PublicIP := eniPublicIp eni
        ENIID := eni.networkInterfaceId
        Cost := flatFee }, none)

/-- `fetchAllENIs`: drains `eniCh` and `errCh`, joining the errors with
`"; "`. -/
def fetchAllENIs (describeNetworkInterfaces : String → Except String (List RawENI))
    (regions : List String) : List ENIInfo × Option String :=
  let results := regions.map (eniRegionTask describeNetworkInterfaces)
  (results.flatMap Prod.fst, combineErrors (results.filterMap Prod.snd))

/-! ## Load-balancer collector (lb.go) -/

/-- The fields of `elbv2types.LoadBalancer` that lb.go reads; `lbType` is
the string value of `lb.Type` (`"application"`, `"network"`, or another
enum value). -/
structure LBDescription where
  dnsName : String
  loadBalancerArn : String
  lbType : String
deriving DecidableEq, Repr

/-- The fields of `elbtypes.LoadBalancerDescription` (classic ELB) that
lb.go reads. -/
structure ClassicLBDescription where
  dnsName : String
  loadBalancerName : String
deriving DecidableEq, Repr

/-- `LoadBalancerInfo` (lb.go); the Go field `Type` is `lbType` here
(`Type` is reserved in Lean). -/
structure LoadBalancerInfo where
  Region : String
  lbType : String
  DNSName : String
  IPCount : Nat
  TrafficLastWeek : Int
  PublicIPs : List String
  Cost : ℚ
deriving DecidableEq, Repr

/-- A CloudWatch `GetMetricData` query as `fetchProcessedBytes` builds it:
namespace, metric name, dimension name and dimension value (the period,
statistic and 7-day time range are constants in the code and carry no
information for the oracle). -/
structure MetricQuery where
  nspace : String
  metricName : String
  dimensionName : String
  dimensionValue : String
deriving DecidableEq, Repr

/-- The outward calls lb.go makes, as oracles: `DescribeLoadBalancers` of
the v2 and the classic API per region, `net.LookupIP`, and CloudWatch
`GetMetricData` (returning, per `MetricDataResult`, the list of values
already truncated to integers as `int(value)` does). -/
structure LbApi where
  describeLoadBalancers : String → Except String (List LBDescription)
  describeClassicLoadBalancers : String → Except String (List ClassicLBDescription)
  lookupIP : String → Except String (List String)
  getMetricData : MetricQuery → Except String (List (List Int))

/-- `countIPsFromDNS` (lb.go): the resolved IP strings; a lookup error is
discarded (`ips, _ := net.LookupIP(dnsName)`), leaving the empty list. -/
def countIPsFromDNS (lookupIP : String → Except String (List String))
    (dnsName : String) : List String :=
  match lookupIP dnsName with
  | .error _ => []
  | .ok ips => ips

/-- The query-and-sum tail of `fetchProcessedBytes` (lb.go): a failing
`GetMetricData` call yields `0`; otherwise the values of the first
metric-data result are summed (`0` when there is no result). -/
def processedBytesQuery (getMetricData : MetricQuery → Except String (List (List Int)))
    (nspace metricName dimensionName dimensionValue : String) : Int :=
  match getMetricData ⟨nspace, metricName, dimensionName, dimensionValue⟩ with
  | .error _ => 0
  | .ok [] => 0
  | .ok (vals :: _) => vals.foldl (· + ·) 0

/-- `fetchProcessedBytes` (lb.go): picks the namespace / dimension /
metric triple by load-balancer kind and returns `-1` for any other kind
(the `default` branch), otherwise the summed metric values. -/
def fetchProcessedBytes (getMetricData : MetricQuery → Except String (List (List Int)))
    (lbIdentifier : String) (lbType : String) : Int :=
  if lbType == "application" then
    processedBytesQuery getMetricData "AWS/ApplicationELB" "ProcessedBytes"
      "LoadBalancer" lbIdentifier
  else if lbType == "network" then
    processedBytesQuery getMetricData "AWS/NetworkELB" "ProcessedBytes"
      "LoadBalancer" lbIdentifier
  else if lbType == "classic" then
    processedBytesQuery getMetricData "AWS/ELB" "EstimatedProcessedBytes"
      "LoadBalancerName" lbIdentifier
  else
    -1

/-- The ARN trimming in the per-record goroutine (lb.go): for application
and network load balancers, the part after `"loadbalancer/"` when the ARN
splits, otherwise the ARN unchanged. -/
def v2Identifier (arn : String) (lbType : String) : String :=
  if lbType == "application" || lbType == "network" then
    match arn.splitOn "loadbalancer/" with
    | _ :: second :: _ => second
    | _ => arn
  else arn

/-- The record built by the second-level per-record goroutine for an ALB /
NLB (lb.go): DNS-resolved IPs, metric traffic, and cost
`3.65 * float64(len(ips))`. -/
def lbV2Record (api : LbApi) (regionName : String) (lb : LBDescription) : LoadBalancerInfo :=
  let ips := countIPsFromDNS api.lookupIP lb.dnsName
  { Region := regionName
    lbType := lb.lbType
    DNSName := lb.dnsName
    IPCount := ips.length
    TrafficLastWeek :=
      fetchProcessedBytes api.getMetricData (v2Identifier lb.loadBalancerArn lb.lbType) lb.lbType
    PublicIPs := ips
    Cost := flatFee * ips.length }

/-- The record built by the second-level per-record goroutine for a
classic ELB (lb.go). -/
def lbClassicRecord (api : LbApi) (regionName : String) (lb : ClassicLBDescription) :
    LoadBalancerInfo :=
  let ips := countIPsFromDNS api.lookupIP lb.dnsName
  { Region := regionName
    lbType := "classic"
    DNSName := lb.dnsName
    IPCount := ips.length
    TrafficLastWeek := fetchProcessedBytes api.getMetricData lb.loadBalancerName "classic"
    PublicIPs := ips
    Cost := flatFee * ips.length }

/-- The body of the per-region goroutine of `fetchAllLoadBalancers`
(lb.go): a failing v2 or classic describe sends one wrapped error and
returns before spawning any per-record goroutine (the classic describe
runs before either loop), otherwise every load balancer of both kinds
becomes one record. -/
def lbRegionTask (api : LbApi) (regionName : String) : List LoadBalancerInfo × Option String :=
  match api.describeLoadBalancers regionName with
  | .error e =>
    ([], some ("failed to fetch LoadBalancers in region " ++ regionName ++ ": " ++ e))
  | .ok lbs =>
    match api.describeClassicLoadBalancers regionName with
    | .error e =>
      ([], some ("failed to fetch Classic LoadBalancers in region " ++ regionName ++ ": " ++ e))
    | .ok classics =>
      (lbs.map (lbV2Record api regionName) ++ classics.map (lbClassicRecord api regionName),
        none)

/-- The record/error aggregation of `fetchAllLoadBalancers` (lb.go): all
records drained from `lbInfoCh`, the errors drained from `errCh` joined
with `"; "`. (This is the data-flow of the function; the lb.go channel
protocol itself, which deadlocks whenever a region task emits an error,
is modelled separately in `LbChan`.) -/
def fetchAllLoadBalancers (api : LbApi) (regions : List String) :
    List LoadBalancerInfo × Option String :=
  let results := regions.map (lbRegionTask api)
  (results.flatMap Prod.fst, combineErrors (results.filterMap Prod.snd))

/-! ## Coordinator (ui.go) -/

/-- `ChannelData` (ui.go). The `*tview.Table` is opaque rendering state,
modelled as an abstract handle (`none` is the nil pointer sent on the
error path of `fetchTableData`). -/
structure ChannelData where
  table : Option Nat
  count : Int
  cost : ℚ
  err : Option String
deriving DecidableEq, Repr

/-- What the coordinator's blocking receive on one category channel can
observe: a delivered `ChannelData`, a channel closed without a message,
or the 20-second timeout elapsing first. -/
inductive ChannelOutcome where
  | delivered : ChannelData → ChannelOutcome
  | closed : ChannelOutcome
  | timedOut : ChannelOutcome
deriving DecidableEq, Repr

/-- The four category channel outcomes `unpackChannelData` (ui.go) waits
on, in its fixed order (ENI, EC2, LB, EIP), together with the `%v`
rendering of each channel value (a runtime address) used in the timeout
message. -/
structure CoordinatorInput where
  eniOutcome : ChannelOutcome
  ec2Outcome : ChannelOutcome
  lbOutcome : ChannelOutcome
  eipOutcome : ChannelOutcome
  eniChanAddr : String
  ec2ChanAddr : String
  lbChanAddr : String
  eipChanAddr : String
deriving DecidableEq, Repr

/-- One iteration of the channel loop in `unpackChannelData` (ui.go):
the closed-channel message, the timeout message built from the channel's
`%v` rendering, then the delivered error check. -/
def receiveCategory (outcome : ChannelOutcome) (chanAddr : String) : Except String ChannelData :=
  match outcome with
  | .closed => .error "channel was closed before data was received"
  | .timedOut => .error ("timeout waiting for data from " ++ chanAddr ++ " channel")
  | .delivered d =>
    match d.err with
    | some e => .error e
    | none => .ok d

/-- `unpackChannelData` (ui.go): waits on the four channels in the fixed
order ENI, EC2, LB, EIP; the first failure aborts with only that error;
full success returns the four tables, counts and costs. -/
def unpackChannelData (inp : CoordinatorInput) :
    Except String (List (Option Nat) × List Int × List ℚ) :=
  match receiveCategory inp.eniOutcome inp.eniChanAddr with
  | .error e => .error e
  | .ok eniData =>
    match receiveCategory inp.ec2Outcome inp.ec2ChanAddr with
    | .error e => .error e
    | .ok ec2Data =>
      match receiveCategory inp.lbOutcome inp.lbChanAddr with
      | .error e => .error e
      | .ok lbData =>
        match receiveCategory inp.eipOutcome inp.eipChanAddr with
        | .error e => .error e
        | .ok eipData =>
          .ok ([eniData.table, ec2Data.table, lbData.table, eipData.table],
            [eniData.count, ec2Data.count, lbData.count, eipData.count],
            [eniData.cost, ec2Data.cost, lbData.cost, eipData.cost])

/-- A category channel outcome that lets the scan proceed: data delivered
with a nil error. -/
def deliveredOk (o : ChannelOutcome) : Bool :=
  match o with
  | .delivered d => d.err.isNone
  | _ => false

/-- `createAndPopulateEIPsTable` (ui.go), projected to the count and
total-cost values it returns (the `tview` cells are rendering only): a
collector error drops the partial records and returns the error;
otherwise the count is the number of records and the total cost the sum
of the record costs. -/
def createAndPopulateEIPsTable (api : EipApi) (regions : List String) :
    Except String (Nat × ℚ) :=
  match fetchAllEIPs api regions with
  | (_, some e) => .error e
  | (allEIPs, none) => .ok (allEIPs.length, (allEIPs.map EIPInfo.Cost).sum)

/-! ## The lb.go channel protocol (`LbChan`)

lb.go creates `lbInfoCh` and `errCh` **unbuffered** (`make(chan …)`), so
every send must rendezvous with a receive. The consumer (the tail of
`fetchAllLoadBalancers`) receives on `lbInfoCh` until it is closed, then
on `errCh` until it is closed; the finalizer goroutine closes both only
after `wg.Wait()` observes every producer done. This is a small-step
model of that protocol for the failing input of one region whose
`DescribeLoadBalancers` call fails: the three tasks are the region
goroutine, the finalizer and the consumer. -/

namespace LbChan

/-- The region goroutine: performing the (failing) describe, blocked
sending the error on `errCh`, or finished (`defer wg.Done()` fired). -/
inductive RegionTaskPC where
  | fetching
  | sendingErr
  | finished
deriving DecidableEq, Repr

/-- The finalizer goroutine: `wg.Wait()`, `close(lbInfoCh)`,
`close(errCh)`, done. -/
inductive FinalizerPC where
  | waiting
  | closingResults
  | closingErrors
  | finished
deriving DecidableEq, Repr

/-- The consumer: `for … range lbInfoCh`, then `for … range errCh`,
then done. -/
inductive ConsumerPC where
  | drainingResults
  | drainingErrors
  | finished
deriving DecidableEq, Repr

/-- Global state: the three program counters, the wait-group counter and
the closed flags of the two unbuffered channels. -/
structure State where
  region : RegionTaskPC
  finalizer : FinalizerPC
  consumer : ConsumerPC
  wgCount : Nat
  resultsClosed : Bool
  errorsClosed : Bool
deriving DecidableEq, Repr

/-- Steps of the region goroutine. Its unbuffered send on `errCh`
rendezvouses only with a consumer currently receiving on `errCh`. -/
def regionSteps (s : State) : List State :=
  match s.region with
  | .fetching => [{ s with region := .sendingErr }]
  | .sendingErr =>
    if s.consumer == .drainingErrors && !s.errorsClosed then
      [{ s with region := .finished, wgCount := s.wgCount - 1 }]
    else []
  | .finished => []

/-- Steps of the finalizer: `wg.Wait()` returns only at counter zero,
then the two closes. -/
def finalizerSteps (s : State) : List State :=
  match s.finalizer with
  | .waiting => if s.wgCount == 0 then [{ s with finalizer := .closingResults }] else []
  | .closingResults => [{ s with finalizer := .closingErrors, resultsClosed := true }]
  | .closingErrors => [{ s with finalizer := .finished, errorsClosed := true }]
  | .finished => []

/-- Steps of the consumer. In this run no task ever sends on `lbInfoCh`
(the only region task fails before spawning a per-record goroutine), so
each `range` loop can advance only once its channel is closed; the
rendezvous receive on `errCh` is accounted in `regionSteps`. -/
def consumerSteps (s : State) : List State :=
  match s.consumer with
  | .drainingResults => if s.resultsClosed then [{ s with consumer := .drainingErrors }] else []
  | .drainingErrors => if s.errorsClosed then [{ s with consumer := .finished }] else []
  | .finished => []

/-- All enabled transitions from a state. -/
def step (s : State) : List State :=
  regionSteps s ++ finalizerSteps s ++ consumerSteps s

/-- The initial state: the region goroutine registered on the wait group
(`wg.Add(1)`), both channels open, consumer entering the results drain. -/
def init : State :=
  { region := .fetching, finalizer := .waiting, consumer := .drainingResults,
    wgCount := 1, resultsClosed := false, errorsClosed := false }

/-- The state reached after the failing describe: the region goroutine
about to send its error on the unbuffered `errCh`. -/
def stuck : State :=
  { region := .sendingErr, finalizer := .waiting, consumer := .drainingResults,
    wgCount := 1, resultsClosed := false, errorsClosed := false }

/-- All three tasks ran to completion. -/
def allDone (s : State) : Bool :=
  s.region == .finished && s.finalizer == .finished && s.consumer == .finished

end LbChan

/-! ## Concrete scan scenarios used to instantiate the theorems -/

/-- An account where every regional `DescribeInstances` call fails. -/
def ec2DescribeAllFail : String → Except String (List RawInstance) :=
  fun _ => .error "AccessDenied"

/-- Scenario A of the spec plus a failing sibling region: `us-east-1`
holds two instances with public IPs, `eu-west-1` fails its describe. -/
def ec2DescribeScenario : String → Except String (List RawInstance) :=
  fun r =>
    if r == "us-east-1" then
      .ok [{ tags := [{ key := "Name", value := "web-1" }], stateName := "running",
             instanceId := "i-0001", publicIpAddress := some "52.0.0.1",
             vpcId := "vpc-1", subnetId := "subnet-1" },
           { tags := [], stateName := "running",
             instanceId := "i-0002", publicIpAddress := some "52.0.0.2",
             vpcId := "vpc-1", subnetId := "subnet-1" }]
    else .error "RequestLimitExceeded"

/-- An EIP region holding one unassociated address and one address
attached to an instance (`InstanceId` set). -/
def eipApiInstanceAttached : EipApi :=
  { describeAddresses := fun r =>
      if r == "us-east-1" then
        .ok [{ instanceId := none, associationId := none, publicIp := "1.2.3.4", tags := [] },
             { instanceId := some "i-0abc", associationId := some "eipassoc-1",
               publicIp := "5.6.7.8", tags := [] }]
      else .ok []
    describeByAssociation := fun _ _ => .ok []
    describeNatGateways := fun _ => .ok [] }

/-- An EIP region holding one unassociated address and one address
associated with a NAT gateway (no `InstanceId`, association resolving
through the network interface to a NAT gateway allocation). -/
def eipApiNatAttached : EipApi :=
  { describeAddresses := fun r =>
      if r == "us-east-1" then
        .ok [{ instanceId := none, associationId := none, publicIp := "1.2.3.4", tags := [] },
             { instanceId := none, associationId := some "eipassoc-2",
               publicIp := "5.6.7.8", tags := [] }]
      else .ok []
    describeByAssociation := fun _ assoc =>
      if assoc == "eipassoc-2" then
        .ok [{ instanceId := none, networkInterfaceId := some "eni-9",
               allocationId := some "eipalloc-2" }]
      else .ok []
    describeNatGateways := fun _ =>
      .ok [{ natGatewayId := "nat-0123", natGatewayAddresses := [⟨some "eipalloc-2"⟩] }] }

/-- One region, one application load balancer, with the DNS lookup and
the CloudWatch query both failing. -/
def lbApiSilentFailures : LbApi :=
  { describeLoadBalancers := fun r =>
      if r == "us-east-1" then
        .ok [{ dnsName := "my-alb.example.com",
               loadBalancerArn := "arn:aws:elasticloadbalancing:us-east-1:1:loadbalancer/app/my/ab",
               lbType := "application" }]
      else .ok []
    describeClassicLoadBalancers := fun _ => .ok []
    lookupIP := fun _ => .error "lookup failure"
    getMetricData := fun _ => .error "metrics failure" }

/-- One region, three application load balancers whose DNS names resolve
to zero (lookup failure), one and three addresses. -/
def lbApiThreeResolutions : LbApi :=
  { describeLoadBalancers := fun r =>
      if r == "us-east-1" then
        .ok [{ dnsName := "lb0.example.com", loadBalancerArn := "arn0", lbType := "application" },
             { dnsName := "lb1.example.com", loadBalancerArn := "arn1", lbType := "application" },
             { dnsName := "lb3.example.com", loadBalancerArn := "arn3", lbType := "application" }]
      else .ok []
    describeClassicLoadBalancers := fun _ => .ok []
    lookupIP := fun d =>
      if d == "lb1.example.com" then .ok ["52.1.0.1"]
      else if d == "lb3.example.com" then .ok ["52.3.0.1", "52.3.0.2", "52.3.0.3"]
      else .error "no such host"
    getMetricData := fun _ => .error "metrics failure" }

/-- One healthy region and one whose v2 describe fails. -/
def lbApiOneRegionFails : LbApi :=
  { describeLoadBalancers := fun r =>
      if r == "us-east-1" then
        .ok [{ dnsName := "lb1.example.com", loadBalancerArn := "arn1", lbType := "application" }]
      else .error "Throttling"
    describeClassicLoadBalancers := fun _ => .ok []
    lookupIP := fun d =>
      if d == "lb1.example.com" then .ok ["52.1.0.1"] else .error "no such host"
    getMetricData := fun _ => .error "metrics failure" }

/-- An ENI account: one region with one public-IP interface, one region
failing its describe. -/
def eniDescribeScenario : String → Except String (List RawENI) :=
  fun r =>
    if r == "us-east-1" then
      .ok [{ association := some { publicIp := some "52.9.0.1" },
             networkInterfaceId := "eni-0001" }]
    else .error "AccessDenied"

/-- A delivered category payload with no error. -/
def okData : ChannelData := { table := some 1, count := 2, cost := 3, err := none }

/-- All four categories delivered successfully. -/
def coordAllOk : CoordinatorInput :=
  { eniOutcome := .delivered okData, ec2Outcome := .delivered okData,
    lbOutcome := .delivered okData, eipOutcome := .delivered okData,
    eniChanAddr := "0xc000090360", ec2ChanAddr := "0xc000090300",
    lbChanAddr := "0xc0000903c0", eipChanAddr := "0xc000090420" }

/-- The ENI channel closed without a message; the rest delivered. -/
def coordClosedEni : CoordinatorInput :=
  { coordAllOk with eniOutcome := .closed }

/-- The LB channel closed without a message; the rest delivered. -/
def coordClosedLb : CoordinatorInput :=
  { coordAllOk with lbOutcome := .closed }

/-- The LB channel timed out; the rest delivered. -/
def coordTimedOutLb : CoordinatorInput :=
  { coordAllOk with lbOutcome := .timedOut }

/-! ## Helper lemmas -/

/-- Unfolding lemma: a joined error is absent exactly when no message was
collected. -/
theorem combineErrors_eq_none_iff (msgs : List String) :
    combineErrors msgs = none ↔ msgs = [] := by
  simp [combineErrors]

/-- Membership in the instances collector output, region by region. -/
theorem mem_fetchAllInstances_fst (d : String → Except String (List RawInstance))
    (regions : List String) (rec : EC2InstanceInfo) :
    rec ∈ (fetchAllInstances d regions).fst ↔
      ∃ r ∈ regions, rec ∈ instancesRegionTask d r := by
  simp [fetchAllInstances, List.mem_flatMap]

/-- Membership in the EIP collector output, region by region. -/
theorem mem_fetchAllEIPs_fst (api : EipApi) (regions : List String) (rec : EIPInfo) :
    rec ∈ (fetchAllEIPs api regions).fst ↔
      ∃ r ∈ regions, rec ∈ (eipRegionTask api r).fst := by
  simp [fetchAllEIPs, List.flatMap_map, List.mem_flatMap]

/-- Membership in the ENI collector output, region by region. -/
theorem mem_fetchAllENIs_fst (d : String → Except String (List RawENI))
    (regions : List String) (rec : ENIInfo) :
    rec ∈ (fetchAllENIs d regions).fst ↔
      ∃ r ∈ regions, rec ∈ (eniRegionTask d r).fst := by
  simp [fetchAllENIs, List.flatMap_map, List.mem_flatMap]

/-- Membership in the LB collector output, region by region. -/
theorem mem_fetchAllLoadBalancers_fst (api : LbApi) (regions : List String)
    (rec : LoadBalancerInfo) :
    rec ∈ (fetchAllLoadBalancers api regions).fst ↔
      ∃ r ∈ regions, rec ∈ (lbRegionTask api r).fst := by
  simp [fetchAllLoadBalancers, List.flatMap_map, List.mem_flatMap]

/-- Every record an instances region task produces carries that region's
name. -/
theorem instancesRegionTask_region (d : String → Except String (List RawInstance))
    (r : String) (rec : EC2InstanceInfo) (h : rec ∈ instancesRegionTask d r) :
    rec.Region = r := by
  unfold instancesRegionTask at h
  cases hfetch : fetchInstancesInRegion d r with
  | error e => rw [hfetch] at h; simp at h
  | ok l =>
    rw [hfetch] at h
    simp [List.mem_map] at h
    obtain ⟨i, _, rfl⟩ := h
    rfl

/-- An instances region task only produces records when its regional fetch
succeeded. -/
theorem instancesRegionTask_fetch_isOk (d : String → Except String (List RawInstance))
    (r : String) (rec : EC2InstanceInfo) (h : rec ∈ instancesRegionTask d r) :
    (fetchInstancesInRegion d r).isOk = true := by
  unfold instancesRegionTask at h
  cases hfetch : fetchInstancesInRegion d r with
  | error e => rw [hfetch] at h; simp at h
  | ok l => rfl

/-- Every record the EIP per-address loop produces carries the region's
name. -/
theorem eipRecordsAndError_region (api : EipApi) (r : String) :
    ∀ (addrs : List RawAddress) (rec : EIPInfo),
      rec ∈ (eipRecordsAndError api r addrs).fst → rec.Region = r := by
  intro addrs
  induction addrs with
  | nil => intro rec h; simp [eipRecordsAndError] at h
  | cons eip rest ih =>
    intro rec h
    by_cases hskip : eip.instanceId.isSome
    · rw [eipRecordsAndError, if_pos hskip] at h
      exact ih rec h
    · rw [eipRecordsAndError, if_neg hskip] at h
      cases hdesc : describeEIPByAssociationID api (eip.associationId.getD "") r with
      | error e => rw [hdesc] at h; simp at h
      | ok target =>
        rw [hdesc] at h
        simp at h
        rcases h with h | h
        · rw [h]
        · exact ih rec h

/-- Every record an EIP region task produces carries that region's name. -/
theorem eipRegionTask_region (api : EipApi) (r : String) (rec : EIPInfo)
    (h : rec ∈ (eipRegionTask api r).fst) : rec.Region = r := by
  unfold eipRegionTask at h
  cases hfetch : fetchEIPsInRegion api r with
  | error e => rw [hfetch] at h; simp at h
  | ok addrs => rw [hfetch] at h; exact eipRecordsAndError_region api r addrs rec h

/-- An EIP region task only produces records when its regional fetch
succeeded. -/
theorem eipRegionTask_fetch_isOk (api : EipApi) (r : String) (rec : EIPInfo)
    (h : rec ∈ (eipRegionTask api r).fst) : (fetchEIPsInRegion api r).isOk = true := by
  unfold eipRegionTask at h
  cases hfetch : fetchEIPsInRegion api r with
  | error e => rw [hfetch] at h; simp at h
  | ok addrs => rfl

/-- Every record an ENI region task produces carries that region's name. -/
theorem eniRegionTask_region (d : String → Except String (List RawENI))
    (r : String) (rec : ENIInfo) (h : rec ∈ (eniRegionTask d r).fst) : rec.Region = r := by
  unfold eniRegionTask at h
  cases hfetch : fetchENIsInRegion d r with
  | error e => rw [hfetch] at h; simp at h
  | ok l =>
    rw [hfetch] at h
    simp [List.mem_map] at h
    obtain ⟨i, _, rfl⟩ := h
    rfl

/-- An ENI region task only produces records when its regional fetch
succeeded. -/
theorem eniRegionTask_fetch_isOk (d : String → Except String (List RawENI))
    (r : String) (rec : ENIInfo) (h : rec ∈ (eniRegionTask d r).fst) :
    (fetchENIsInRegion d r).isOk = true := by
  unfold eniRegionTask at h
  cases hfetch : fetchENIsInRegion d r with
  | error e => rw [hfetch] at h; simp at h
  | ok l => rfl

/-- Every record an LB region task produces carries that region's name. -/
theorem lbRegionTask_region (api : LbApi) (r : String) (rec : LoadBalancerInfo)
    (h : rec ∈ (lbRegionTask api r).fst) : rec.Region = r := by
  unfold lbRegionTask at h
  cases h2 : api.describeLoadBalancers r with
  | error e => rw [h2] at h; simp at h
  | ok lbs =>
    rw [h2] at h
    cases hc : api.describeClassicLoadBalancers r with
    | error e => rw [hc] at h; simp at h
    | ok classics =>
      rw [hc] at h
      simp [List.mem_map, List.mem_append] at h
      rcases h with ⟨lb, _, rfl⟩ | ⟨lb, _, rfl⟩ <;> rfl

/-- An LB region task only produces records when both regional describes
succeeded. -/
theorem lbRegionTask_fetches_isOk (api : LbApi) (r : String) (rec : LoadBalancerInfo)
    (h : rec ∈ (lbRegionTask api r).fst) :
    (api.describeLoadBalancers r).isOk = true ∧
      (api.describeClassicLoadBalancers r).isOk = true := by
  unfold lbRegionTask at h
  cases h2 : api.describeLoadBalancers r with
  | error e => rw [h2] at h; simp at h
  | ok lbs =>
    rw [h2] at h
    cases hc : api.describeClassicLoadBalancers r with
    | error e => rw [hc] at h; simp at h
    | ok classics => exact ⟨rfl, rfl⟩

/-- The EIP combined error is the join of the region tasks' error
messages. -/
theorem fetchAllEIPs_snd_eq (api : EipApi) (regions : List String) :
    (fetchAllEIPs api regions).snd =
      combineErrors (regions.filterMap (fun r => (eipRegionTask api r).snd)) := by
  simp [fetchAllEIPs, List.filterMap_map]
  rfl

/-- The ENI combined error is the join of the region tasks' error
messages. -/
theorem fetchAllENIs_snd_eq (d : String → Except String (List RawENI)) (regions : List String) :
    (fetchAllENIs d regions).snd =
      combineErrors (regions.filterMap (fun r => (eniRegionTask d r).snd)) := by
  simp [fetchAllENIs, List.filterMap_map]
  rfl

/-- The LB combined error is the join of the region tasks' error
messages. -/
theorem fetchAllLoadBalancers_snd_eq (api : LbApi) (regions : List String) :
    (fetchAllLoadBalancers api regions).snd =
      combineErrors (regions.filterMap (fun r => (lbRegionTask api r).snd)) := by
  simp [fetchAllLoadBalancers, List.filterMap_map]
  rfl

/-- The EIP combined error is absent exactly when no region task failed. -/
theorem fetchAllEIPs_snd_none_iff (api : EipApi) (regions : List String) :
    (fetchAllEIPs api regions).snd = none ↔
      ∀ r ∈ regions, (eipRegionTask api r).snd = none := by
  rw [fetchAllEIPs_snd_eq, combineErrors_eq_none_iff, List.filterMap_eq_nil_iff]

/-- The ENI combined error is absent exactly when no region task failed. -/
theorem fetchAllENIs_snd_none_iff (d : String → Except String (List RawENI))
    (regions : List String) :
    (fetchAllENIs d regions).snd = none ↔
      ∀ r ∈ regions, (eniRegionTask d r).snd = none := by
  rw [fetchAllENIs_snd_eq, combineErrors_eq_none_iff, List.filterMap_eq_nil_iff]

/-- The LB combined error is absent exactly when no region task failed. -/
theorem fetchAllLoadBalancers_snd_none_iff (api : LbApi) (regions : List String) :
    (fetchAllLoadBalancers api regions).snd = none ↔
      ∀ r ∈ regions, (lbRegionTask api r).snd = none := by
  rw [fetchAllLoadBalancers_snd_eq, combineErrors_eq_none_iff, List.filterMap_eq_nil_iff]

/-- A message list with a member joins to a present combined error. -/
theorem combineErrors_of_mem (msgs : List String) (m : String) (hm : m ∈ msgs) :
    combineErrors msgs = some (String.intercalate "; " msgs) := by
  cases msgs with
  | nil => simp at hm
  | cons a l => simp [combineErrors]

/-- A failing LB region task's message appears in the joined combined
error. -/
theorem fetchAllLoadBalancers_error_mem (api : LbApi) (regions : List String)
    (r : String) (m : String) (hr : r ∈ regions) (hm : (lbRegionTask api r).snd = some m) :
    ∃ msgs, (fetchAllLoadBalancers api regions).snd = some (String.intercalate "; " msgs) ∧
      m ∈ msgs := by
  have hmem : m ∈ regions.filterMap (fun r => (lbRegionTask api r).snd) :=
    List.mem_filterMap.mpr ⟨r, hr, hm⟩
  exact ⟨_, by rw [fetchAllLoadBalancers_snd_eq, combineErrors_of_mem _ m hmem], hmem⟩

/-- The error an LB region task emits depends only on the two describe
calls, not on the DNS or metrics oracles. -/
theorem lbRegionTask_snd_invariant (api1 api2 : LbApi) (r : String)
    (h1 : api1.describeLoadBalancers = api2.describeLoadBalancers)
    (h2 : api1.describeClassicLoadBalancers = api2.describeClassicLoadBalancers) :
    (lbRegionTask api1 r).snd = (lbRegionTask api2 r).snd := by
  unfold lbRegionTask
  rw [h1, h2]
  cases api2.describeLoadBalancers r with
  | error e => rfl
  | ok lbs =>
    cases api2.describeClassicLoadBalancers r with
    | error e => rfl
    | ok classics => rfl

/-- Every LB record's cost, IP count and IP list come from the DNS
resolution of its own DNS name. -/
theorem lbRegionTask_record_fields (api : LbApi) (r : String) (rec : LoadBalancerInfo)
    (h : rec ∈ (lbRegionTask api r).fst) :
    rec.Cost = flatFee * rec.IPCount ∧
      rec.IPCount = (countIPsFromDNS api.lookupIP rec.DNSName).length ∧
      rec.PublicIPs = countIPsFromDNS api.lookupIP rec.DNSName := by
  unfold lbRegionTask at h
  cases h2 : api.describeLoadBalancers r with
  | error e => rw [h2] at h; simp at h
  | ok lbs =>
    rw [h2] at h
    cases hc : api.describeClassicLoadBalancers r with
    | error e => rw [hc] at h; simp at h
    | ok classics =>
      rw [hc] at h
      simp [List.mem_map, List.mem_append] at h
      rcases h with ⟨lb, _, rfl⟩ | ⟨lb, _, rfl⟩ <;>
        exact ⟨rfl, rfl, rfl⟩

/-- One coordinator receive succeeds exactly on a delivered payload with
no error. -/
theorem receiveCategory_isOk (o : ChannelOutcome) (a : String) :
    (∃ d, receiveCategory o a = .ok d) ↔ deliveredOk o = true := by
  cases o with
  | delivered d => cases hd : d.err <;> simp [receiveCategory, deliveredOk, hd]
  | closed => simp [receiveCategory, deliveredOk]
  | timedOut => simp [receiveCategory, deliveredOk]

/-- The coordinator returns data exactly when all four categories
delivered with no error. -/
theorem unpack_ok_iff (inp : CoordinatorInput) :
    (∃ payload, unpackChannelData inp = .ok payload) ↔
      (deliveredOk inp.eniOutcome = true ∧ deliveredOk inp.ec2Outcome = true ∧
       deliveredOk inp.lbOutcome = true ∧ deliveredOk inp.eipOutcome = true) := by
  rw [← receiveCategory_isOk inp.eniOutcome inp.eniChanAddr,
    ← receiveCategory_isOk inp.ec2Outcome inp.ec2ChanAddr,
    ← receiveCategory_isOk inp.lbOutcome inp.lbChanAddr,
    ← receiveCategory_isOk inp.eipOutcome inp.eipChanAddr]
  unfold unpackChannelData
  cases h1 : receiveCategory inp.eniOutcome inp.eniChanAddr with
  | error e => simp [h1]
  | ok d1 =>
    cases h2 : receiveCategory inp.ec2Outcome inp.ec2ChanAddr with
    | error e => simp [h1, h2]
    | ok d2 =>
      cases h3 : receiveCategory inp.lbOutcome inp.lbChanAddr with
      | error e => simp [h1, h2, h3]
      | ok d3 =>
        cases h4 : receiveCategory inp.eipOutcome inp.eipChanAddr with
        | error e => simp [h1, h2, h3, h4]
        | ok d4 => simp [h1, h2, h3, h4]

/-! ## The claims -/

/-- C1 (counterexample): the instances collector violates the combined
error contract. With an account where every regional `DescribeInstances`
fails, `fetchAllInstances` over one region still returns a nil combined
error (and no records), so a failing regional fetch does not make the
combined error non-empty. -/
theorem claim1_counterexample :
    (fetchInstancesInRegion ec2DescribeAllFail "us-east-1").isOk = false ∧
    fetchAllInstances ec2DescribeAllFail ["us-east-1"] = ([], none) := by
  refine ⟨rfl, ?_⟩
  simp [fetchAllInstances, instancesRegionTask, fetchInstancesInRegion, ec2DescribeAllFail]

/-- C1 (amended): the EIP, ENI and LB collectors return a combined error
that is exactly the `"; "`-join of every region task's failure message —
absent precisely when no region task failed — while the instances
collector always returns a nil combined error whatever happens; two
concrete scans exhibit the joined message (one failure, and two failures
joined by `"; "`, a non-empty string). -/
theorem claim1_amended :
    (∀ (d : String → Except String (List RawInstance)) (regions : List String),
        (fetchAllInstances d regions).snd = none) ∧
    (∀ (api : EipApi) (regions : List String),
        ((fetchAllEIPs api regions).snd = none ↔
          ∀ r ∈ regions, (eipRegionTask api r).snd = none)) ∧
    (∀ (api : EipApi) (regions : List String),
        (fetchAllEIPs api regions).snd =
          combineErrors (regions.filterMap (fun r => (eipRegionTask api r).snd))) ∧
    (∀ (d : String → Except String (List RawENI)) (regions : List String),
        ((fetchAllENIs d regions).snd = none ↔
          ∀ r ∈ regions, (eniRegionTask d r).snd = none)) ∧
    (∀ (d : String → Except String (List RawENI)) (regions : List String),
        (fetchAllENIs d regions).snd =
          combineErrors (regions.filterMap (fun r => (eniRegionTask d r).snd))) ∧
    (∀ (api : LbApi) (regions : List String),
        ((fetchAllLoadBalancers api regions).snd = none ↔
          ∀ r ∈ regions, (lbRegionTask api r).snd = none)) ∧
    (∀ (api : LbApi) (regions : List String),
        (fetchAllLoadBalancers api regions).snd =
          combineErrors (regions.filterMap (fun r => (lbRegionTask api r).snd))) ∧
    ((fetchAllENIs eniDescribeScenario ["us-east-1", "eu-west-1"]).snd =
      some "Failed to fetch ENIs in region eu-west-1: failed to describe ENIs in region eu-west-1: AccessDenied") ∧
    ((fetchAllLoadBalancers lbApiOneRegionFails ["eu-west-1", "ap-south-1"]).snd =
      some "failed to fetch LoadBalancers in region eu-west-1: Throttling; failed to fetch LoadBalancers in region ap-south-1: Throttling") ∧
    ("failed to fetch LoadBalancers in region eu-west-1: Throttling; failed to fetch LoadBalancers in region ap-south-1: Throttling" ≠ "") := by
  refine ⟨fun d regions => rfl, fetchAllEIPs_snd_none_iff, fetchAllEIPs_snd_eq,
    fetchAllENIs_snd_none_iff, fetchAllENIs_snd_eq,
    fetchAllLoadBalancers_snd_none_iff, fetchAllLoadBalancers_snd_eq, rfl, rfl, by decide⟩

/-- C2 (counterexample): the coordinator's abort error does not name the
failing category. Two scans failing in different categories — the ENI
channel closed in one, the LB channel closed in the other, every other
category delivered successfully — abort with the identical error string
`"channel was closed before data was received"`, which therefore cannot
identify the failing category. -/
theorem claim2_counterexample :
    coordClosedEni ≠ coordClosedLb ∧
    unpackChannelData coordClosedEni = .error "channel was closed before data was received" ∧
    unpackChannelData coordClosedLb = .error "channel was closed before data was received" := by
  refine ⟨by decide, rfl, rfl⟩

/-- C2 (amended): whenever any category fails to deliver a clean terminal
outcome the coordinator aborts the whole scan with an error; the
closed-channel error is one fixed message independent of the channel, the
timeout error embeds only the channel's runtime `%v` value, and only an
error delivered by the category itself is returned verbatim. -/
theorem claim2_amended :
    (∀ inp : CoordinatorInput,
        ¬(deliveredOk inp.eniOutcome = true ∧ deliveredOk inp.ec2Outcome = true ∧
          deliveredOk inp.lbOutcome = true ∧ deliveredOk inp.eipOutcome = true) →
        ∃ e, unpackChannelData inp = .error e) ∧
    (∀ a1 a2 : String, receiveCategory .closed a1 = receiveCategory .closed a2) ∧
    (∀ a : String, receiveCategory .timedOut a =
        .error ("timeout waiting for data from " ++ a ++ " channel")) ∧
    (∀ (d : ChannelData) (a e : String), d.err = some e →
        receiveCategory (.delivered d) a = .error e) := by
  refine ⟨?_, fun a1 a2 => rfl, fun a => rfl, ?_⟩
  · intro inp hno
    cases hu : unpackChannelData inp with
    | error e => exact ⟨e, rfl⟩
    | ok p => exact absurd ((unpack_ok_iff inp).mp ⟨p, hu⟩) hno
  · intro d a e he
    simp [receiveCategory, he]

/-- C3 (counterexample): an EIP scan whose region holds exactly one
unassociated Elastic IP and one associated Elastic IP — the association
being an instance attachment — totals `7.30`, not `10.95`: the
instance-attached EIP is skipped by the collector and contributes
nothing. -/
theorem claim3_counterexample :
    createAndPopulateEIPsTable eipApiInstanceAttached ["us-east-1"] = .ok (1, 73/10) ∧
    (73 : ℚ)/10 ≠ 1095/100 := by
  constructor
  · simp [createAndPopulateEIPsTable, fetchAllEIPs, eipRegionTask, fetchEIPsInRegion,
      eipApiInstanceAttached, eipRecordsAndError, describeEIPByAssociationID, combineErrors,
      getNameTagValue, getTagValue, flatFee]
    norm_num
  · norm_num

/-- C3 (amended): with one unassociated Elastic IP and one Elastic IP
associated with a NAT gateway, the EIP category totals
`10.95 = 3.65 + 3.65 + 3.65`: the NAT-associated EIP contributes one flat
fee and the unassociated EIP two. -/
theorem claim3_amended :
    createAndPopulateEIPsTable eipApiNatAttached ["us-east-1"] = .ok (2, 1095/100) ∧
    (fetchAllEIPs eipApiNatAttached ["us-east-1"]).fst.map
        (fun rec => (rec.AssociationTarget, rec.Cost)) =
      [("", 73/10), ("NAT Gateway: nat-0123", 365/100)] ∧
    (1095 : ℚ)/100 = 365/100 + 365/100 + 365/100 := by
  refine ⟨?_, ?_, by norm_num⟩
  · simp [createAndPopulateEIPsTable, fetchAllEIPs, eipRegionTask, fetchEIPsInRegion,
      eipApiNatAttached, eipRecordsAndError, describeEIPByAssociationID, combineErrors,
      natTargetFor, AssociationTypeNATGateway, getNameTagValue, getTagValue, flatFee]
    norm_num
  · simp [fetchAllEIPs, eipRegionTask, fetchEIPsInRegion,
      eipApiNatAttached, eipRecordsAndError, describeEIPByAssociationID, combineErrors,
      natTargetFor, AssociationTypeNATGateway, getNameTagValue, getTagValue, flatFee]
    norm_num

/-- C4: for every collector, records come only from regions whose
regional fetch succeeded (first, third, fifth and seventh conjuncts),
and every record a region's task produces is in the returned sequence,
whatever happened in sibling regions (the region task is a function of
its own region alone — second, fourth, sixth and eighth conjuncts). -/
theorem claim4 :
    (∀ (d : String → Except String (List RawInstance)) (regions : List String)
        (rec : EC2InstanceInfo), rec ∈ (fetchAllInstances d regions).fst →
        (fetchInstancesInRegion d rec.Region).isOk = true) ∧
    (∀ (d : String → Except String (List RawInstance)) (regions : List String) (r : String),
        r ∈ regions → ∀ rec ∈ instancesRegionTask d r,
          rec ∈ (fetchAllInstances d regions).fst) ∧
    (∀ (api : EipApi) (regions : List String) (rec : EIPInfo),
        rec ∈ (fetchAllEIPs api regions).fst →
        (fetchEIPsInRegion api rec.Region).isOk = true) ∧
    (∀ (api : EipApi) (regions : List String) (r : String),
        r ∈ regions → ∀ rec ∈ (eipRegionTask api r).fst,
          rec ∈ (fetchAllEIPs api regions).fst) ∧
    (∀ (d : String → Except String (List RawENI)) (regions : List String) (rec : ENIInfo),
        rec ∈ (fetchAllENIs d regions).fst →
        (fetchENIsInRegion d rec.Region).isOk = true) ∧
    (∀ (d : String → Except String (List RawENI)) (regions : List String) (r : String),
        r ∈ regions → ∀ rec ∈ (eniRegionTask d r).fst,
          rec ∈ (fetchAllENIs d regions).fst) ∧
    (∀ (api : LbApi) (regions : List String) (rec : LoadBalancerInfo),
        rec ∈ (fetchAllLoadBalancers api regions).fst →
        (api.describeLoadBalancers rec.Region).isOk = true ∧
          (api.describeClassicLoadBalancers rec.Region).isOk = true) ∧
    (∀ (api : LbApi) (regions : List String) (r : String),
        r ∈ regions → ∀ rec ∈ (lbRegionTask api r).fst,
          rec ∈ (fetchAllLoadBalancers api regions).fst) := by
  refine ⟨?_, ?_, ?_, ?_, ?_, ?_, ?_, ?_⟩
  · intro d regions rec h
    obtain ⟨r, hr, hmem⟩ := (mem_fetchAllInstances_fst d regions rec).mp h
    rw [instancesRegionTask_region d r rec hmem]
    exact instancesRegionTask_fetch_isOk d r rec hmem
  · intro d regions r hr rec hmem
    exact (mem_fetchAllInstances_fst d regions rec).mpr ⟨r, hr, hmem⟩
  · intro api regions rec h
    obtain ⟨r, hr, hmem⟩ := (mem_fetchAllEIPs_fst api regions rec).mp h
    rw [eipRegionTask_region api r rec hmem]
    exact eipRegionTask_fetch_isOk api r rec hmem
  · intro api regions r hr rec hmem
    exact (mem_fetchAllEIPs_fst api regions rec).mpr ⟨r, hr, hmem⟩
  · intro d regions rec h
    obtain ⟨r, hr, hmem⟩ := (mem_fetchAllENIs_fst d regions rec).mp h
    rw [eniRegionTask_region d r rec hmem]
    exact eniRegionTask_fetch_isOk d r rec hmem
  · intro d regions r hr rec hmem
    exact (mem_fetchAllENIs_fst d regions rec).mpr ⟨r, hr, hmem⟩
  · intro api regions rec h
    obtain ⟨r, hr, hmem⟩ := (mem_fetchAllLoadBalancers_fst api regions rec).mp h
    rw [lbRegionTask_region api r rec hmem]
    exact lbRegionTask_fetches_isOk api r rec hmem
  · intro api regions r hr rec hmem
    exact (mem_fetchAllLoadBalancers_fst api regions rec).mpr ⟨r, hr, hmem⟩

/-- C5: every load-balancer record of any kind has
`Cost = 3.65 × IPCount` with `IPCount` the number of IPs the scan-time
DNS resolution of its DNS name yields; a concrete scan with 0, 1 and 3
resolved IPs yields costs 0, 3.65 and 10.95. -/
theorem claim5 :
    (∀ (api : LbApi) (regions : List String) (rec : LoadBalancerInfo),
        rec ∈ (fetchAllLoadBalancers api regions).fst →
          rec.Cost = flatFee * rec.IPCount ∧
          rec.IPCount = (countIPsFromDNS api.lookupIP rec.DNSName).length) ∧
    ((fetchAllLoadBalancers lbApiThreeResolutions ["us-east-1"]).fst.map
        (fun rec => (rec.IPCount, rec.Cost)) = [(0, 0), (1, 365/100), (3, 1095/100)]) := by
  constructor
  · intro api regions rec h
    obtain ⟨r, _, hmem⟩ := (mem_fetchAllLoadBalancers_fst api regions rec).mp h
    obtain ⟨hc, hip, _⟩ := lbRegionTask_record_fields api r rec hmem
    exact ⟨hc, hip⟩
  · simp [fetchAllLoadBalancers, lbRegionTask, lbApiThreeResolutions, lbV2Record,
      countIPsFromDNS, flatFee]
    norm_num

/-- C6 (counterexample): per-record DNS-resolution and traffic-metrics
failures are silently dropped. One region with one application load
balancer whose DNS lookup and CloudWatch query both fail yields a record
with 0 IPs, 0 traffic and cost 0 and a nil combined error — neither
failure is recorded. -/
theorem claim6_counterexample :
    (lbApiSilentFailures.lookupIP "my-alb.example.com" = .error "lookup failure") ∧
    (∀ q : MetricQuery, lbApiSilentFailures.getMetricData q = .error "metrics failure") ∧
    fetchAllLoadBalancers lbApiSilentFailures ["us-east-1"] =
      ([{ Region := "us-east-1", lbType := "application", DNSName := "my-alb.example.com",
          IPCount := 0, TrafficLastWeek := 0, PublicIPs := [], Cost := 0 }], none) := by
  refine ⟨rfl, fun q => rfl, ?_⟩
  simp [fetchAllLoadBalancers, lbRegionTask, lbApiSilentFailures, lbV2Record,
    countIPsFromDNS, fetchProcessedBytes, processedBytesQuery, combineErrors, flatFee]

/-- C6 (amended): regional fetch failures are recorded — a failing LB
region task's message appears in the joined combined error and sibling
regions' records are kept — but the DNS and metrics oracles can never
influence the combined error, and a failed DNS lookup silently becomes
zero resolved IPs with cost 0. -/
theorem claim6_amended :
    (∀ (api1 api2 : LbApi) (regions : List String),
        api1.describeLoadBalancers = api2.describeLoadBalancers →
        api1.describeClassicLoadBalancers = api2.describeClassicLoadBalancers →
        (fetchAllLoadBalancers api1 regions).snd = (fetchAllLoadBalancers api2 regions).snd) ∧
    (∀ (api : LbApi) (regions : List String) (r m : String),
        r ∈ regions → (lbRegionTask api r).snd = some m →
        ∃ msgs, (fetchAllLoadBalancers api regions).snd =
            some (String.intercalate "; " msgs) ∧ m ∈ msgs) ∧
    (∀ (api : LbApi) (regions : List String) (r : String),
        r ∈ regions → ∀ rec ∈ (lbRegionTask api r).fst,
          rec ∈ (fetchAllLoadBalancers api regions).fst) ∧
    (∀ (api : LbApi) (r e : String) (lb : LBDescription),
        api.lookupIP lb.dnsName = .error e →
        (lbV2Record api r lb).IPCount = 0 ∧ (lbV2Record api r lb).Cost = 0 ∧
          (lbV2Record api r lb).PublicIPs = []) := by
  refine ⟨?_, fetchAllLoadBalancers_error_mem, ?_, ?_⟩
  · intro api1 api2 regions h1 h2
    rw [fetchAllLoadBalancers_snd_eq, fetchAllLoadBalancers_snd_eq]
    congr 1
    apply List.filterMap_congr
    intro r _
    exact lbRegionTask_snd_invariant api1 api2 r h1 h2
  · intro api regions r hr rec hmem
    exact (mem_fetchAllLoadBalancers_fst api regions rec).mpr ⟨r, hr, hmem⟩
  · intro api r e lb he
    simp [lbV2Record, countIPsFromDNS, he]

/-- C7: the coordinator returns data exactly when all four categories
delivered a payload with a nil error — any failure, timeout or closed
channel yields only an error and none of the successful categories'
tables, counts or costs — and on full success it returns exactly the
four tables, counts and costs; concretely, an LB timeout aborts an
otherwise successful scan and an all-successful scan returns its data. -/
theorem claim7 :
    (∀ inp : CoordinatorInput,
        (∃ payload, unpackChannelData inp = .ok payload) ↔
          (deliveredOk inp.eniOutcome = true ∧ deliveredOk inp.ec2Outcome = true ∧
           deliveredOk inp.lbOutcome = true ∧ deliveredOk inp.eipOutcome = true)) ∧
    (∀ d1 d2 d3 d4 : ChannelData, ∀ a1 a2 a3 a4 : String,
        d1.err = none → d2.err = none → d3.err = none → d4.err = none →
        unpackChannelData ⟨.delivered d1, .delivered d2, .delivered d3, .delivered d4,
            a1, a2, a3, a4⟩ =
          .ok ([d1.table, d2.table, d3.table, d4.table],
            [d1.count, d2.count, d3.count, d4.count],
            [d1.cost, d2.cost, d3.cost, d4.cost])) ∧
    (unpackChannelData coordTimedOutLb =
      .error "timeout waiting for data from 0xc0000903c0 channel") ∧
    (unpackChannelData coordAllOk = .ok ([some 1, some 1, some 1, some 1],
      [2, 2, 2, 2], [3, 3, 3, 3])) := by
  refine ⟨unpack_ok_iff, ?_, rfl, rfl⟩
  intro d1 d2 d3 d4 a1 a2 a3 a4 h1 h2 h3 h4
  simp [unpackChannelData, receiveCategory, h1, h2, h3, h4]

/-- C8: for all four collectors, every emitted record's `Region` field is
a member of the region set passed to the collector. -/
theorem claim8 :
    (∀ (d : String → Except String (List RawInstance)) (regions : List String)
        (rec : EC2InstanceInfo),
        rec ∈ (fetchAllInstances d regions).fst → rec.Region ∈ regions) ∧
    (∀ (api : EipApi) (regions : List String) (rec : EIPInfo),
        rec ∈ (fetchAllEIPs api regions).fst → rec.Region ∈ regions) ∧
    (∀ (d : String → Except String (List RawENI)) (regions : List String) (rec : ENIInfo),
        rec ∈ (fetchAllENIs d regions).fst → rec.Region ∈ regions) ∧
    (∀ (api : LbApi) (regions : List String) (rec : LoadBalancerInfo),
        rec ∈ (fetchAllLoadBalancers api regions).fst → rec.Region ∈ regions) := by
  refine ⟨?_, ?_, ?_, ?_⟩
  · intro d regions rec h
    obtain ⟨r, hr, hmem⟩ := (mem_fetchAllInstances_fst d regions rec).mp h
    rw [instancesRegionTask_region d r rec hmem]; exact hr
  · intro api regions rec h
    obtain ⟨r, hr, hmem⟩ := (mem_fetchAllEIPs_fst api regions rec).mp h
    rw [eipRegionTask_region api r rec hmem]; exact hr
  · intro d regions rec h
    obtain ⟨r, hr, hmem⟩ := (mem_fetchAllENIs_fst d regions rec).mp h
    rw [eniRegionTask_region d r rec hmem]; exact hr
  · intro api regions rec h
    obtain ⟨r, hr, hmem⟩ := (mem_fetchAllLoadBalancers_fst api regions rec).mp h
    rw [lbRegionTask_region api r rec hmem]; exact hr

/-- C9: the lb.go channel protocol deadlocks on a failing regional fetch.
From the initial state of the protocol (one region task whose describe
fails, both channels unbuffered and open, consumer draining the results
channel), the only enabled transition is the describe completing, and the
resulting state is terminal — the region task is blocked sending on the
unbuffered error channel, the finalizer on `wg.Wait()` and the consumer
on the open results channel — with none of the three tasks finished: the
drain never terminates. -/
theorem claim9_deadlock :
    LbChan.step LbChan.init = [LbChan.stuck] ∧
    LbChan.step LbChan.stuck = [] ∧
    LbChan.allDone LbChan.stuck = false ∧
    LbChan.stuck.wgCount = 1 ∧
    LbChan.stuck.resultsClosed = false ∧ LbChan.stuck.errorsClosed = false := by
  exact ⟨rfl, rfl, rfl, rfl, rfl, rfl⟩

/-- C10: `fetchProcessedBytes` returns `-1` for any load-balancer kind
outside application/network/classic whatever the metrics oracle says,
returns `0` whenever the metrics query itself fails for a supported kind,
and that `0` is the very value a successful zero-traffic query returns —
a failed traffic query is indistinguishable from zero traffic. -/
theorem claim10 :
    (∀ (g : MetricQuery → Except String (List (List Int))) (lbId t : String),
        t ≠ "application" → t ≠ "network" → t ≠ "classic" →
        fetchProcessedBytes g lbId t = -1) ∧
    (∀ (e lbId t : String), t = "application" ∨ t = "network" ∨ t = "classic" →
        fetchProcessedBytes (fun _ => .error e) lbId t = 0) ∧
    (fetchProcessedBytes (fun _ => .error "InternalError") "app/my/ab" "application" =
      fetchProcessedBytes (fun _ => .ok [[]]) "app/my/ab" "application") ∧
    (fetchProcessedBytes (fun _ => .ok [[1, 2], [5]]) "gwlb1" "gateway" = -1) := by
  refine ⟨?_, ?_, rfl, rfl⟩
  · intro g lbId t h1 h2 h3
    simp [fetchProcessedBytes, h1, h2, h3]
  · rintro e lbId t (rfl | rfl | rfl) <;> rfl
